import Mathlib

/-
Verification of `src/misc/scripts/interp.py`: a script that evaluates a
piecewise-linear interpolant (np.interp) and a hand-coded quadratic Lagrange
interpolant over the fixed sample set x = [94, 205, 371], y = [929, 902, 860],
and integrates the linear interpolant over [94, 251] by quadrature.

Machine floats are modelled by exact rationals (ℚ); every arithmetic claim of
the spec is settled in exact arithmetic.
-/

namespace Interp

/-- The sample x-values of the script: `x = [94.0, 205.0, 371.0]`. -/
def x : List ℚ := [94, 205, 371]

/-- The sample y-values of the script: `y = [929.0, 902.0, 860.0]`. -/
def y : List ℚ := [929, 902, 860]

/-- Embeds `f_interp = lambda xx: np.interp(xx, x, y)` specialised to the
script's three-point sample set: boundary clamping outside [94, 371], and on
each bracketing interval the linear blend
`y_i + (t - x_i) * (y_{i+1} - y_i) / (x_{i+1} - x_i)`.
At an interior knot both adjacent formulas give the knot's y-value, so the
branch boundaries are immaterial in exact arithmetic. -/
def f_interp (t : ℚ) : ℚ :=
  if t ≤ 94 then 929
  else if t ≤ 205 then 929 + (t - 94) * (902 - 929) / (205 - 94)
  else if t ≤ 371 then 902 + (t - 205) * (860 - 902) / (371 - 205)
  else 860

/-- Piecewise antiderivative of `f_interp`, with value 0 at t = 94: on each
region it accumulates the closed-form integral of the clamped constant or
linear segment. Used to model the quadrature primitive exactly. -/
def interpAntideriv (t : ℚ) : ℚ :=
  if t ≤ 94 then 929 * (t - 94)
  else if t ≤ 205 then 929 * (t - 94) + (t - 94) ^ 2 / 2 * ((902 - 929) / (205 - 94))
  else if t ≤ 371 then
    929 * 111 + 111 ^ 2 / 2 * ((902 - 929) / (205 - 94))
      + 902 * (t - 205) + (t - 205) ^ 2 / 2 * ((860 - 902) / (371 - 205))
  else
    929 * 111 + 111 ^ 2 / 2 * ((902 - 929) / (205 - 94))
      + 902 * 166 + 166 ^ 2 / 2 * ((860 - 902) / (371 - 205))
      + 860 * (t - 371)

/-- Modelled from the spec: the adaptive quadrature primitive
`scipy.integrate.quad(f_interp, a, b)` is an external numerical primitive, not
code under src/. Per §4.2 and §6 it returns a pair (estimate of the definite
integral of the supplied integrand from a to b, absolute error estimate). We
model it as the exact definite integral of the piecewise-linear interpolant,
computed via its piecewise antiderivative, paired with error estimate 0. -/
def quad (a b : ℚ) : ℚ × ℚ :=
  (interpAntideriv b - interpAntideriv a, 0)

/-- Embeds the script's hand-expanded quadratic interpolant:
```
def f(t):
    a = 929.0*((t-205.0)*(t-371.0))/((94-205)*(94-371))
    b = 902.0*((t-94.0)*(t-371.0))/((205-94)*(205-371))
    c = 860.0*((t-94.0)*(t-205.0))/((371-94)*(371-205))
    return a + b + c
``` -/
def f (t : ℚ) : ℚ :=
  929 * ((t - 205) * (t - 371)) / ((94 - 205) * (94 - 371))
    + 902 * ((t - 94) * (t - 371)) / ((205 - 94) * (205 - 371))
    + 860 * ((t - 94) * (t - 205)) / ((371 - 94) * (371 - 205))

/-- Spec-side definition (§4.3): the Lagrange basis polynomial L0 for the
sample set, the product of (t - xj)/(x0 - xj) over j ≠ 0. -/
def lagrangeL0 (t : ℚ) : ℚ :=
  (t - 205) / (94 - 205) * ((t - 371) / (94 - 371))

/-- Spec-side definition (§4.3): the Lagrange basis polynomial L1. -/
def lagrangeL1 (t : ℚ) : ℚ :=
  (t - 94) / (205 - 94) * ((t - 371) / (205 - 371))

/-- Spec-side definition (§4.3): the Lagrange basis polynomial L2. -/
def lagrangeL2 (t : ℚ) : ℚ :=
  (t - 94) / (371 - 94) * ((t - 205) / (371 - 205))

/-- Spec-side definition (§4.3): the closed-form Lagrange interpolant
`y0 * L0(t) + y1 * L1(t) + y2 * L2(t)` for the sample set. -/
def lagrangeInterp (t : ℚ) : ℚ :=
  929 * lagrangeL0 t + 902 * lagrangeL1 t + 860 * lagrangeL2 t

/-- The coefficient of t^2 in the quadratic interpolant, as a sum of the three
Lagrange leading coefficients. -/
def leadingCoeff : ℚ :=
  929 / ((94 - 205) * (94 - 371)) + 902 / ((205 - 94) * (205 - 371))
    + 860 / ((371 - 94) * (371 - 205))

/-- Division guarded against a zero denominator. -/
def qdivChecked (a b : ℚ) : Option ℚ :=
  if b = 0 then none else some (a / b)

/-- The quadratic interpolant with every division guarded: returns `none` iff
some denominator is zero, otherwise `some` of the sum a + b + c as in `f`. -/
def fChecked (t : ℚ) : Option ℚ :=
  (qdivChecked (929 * ((t - 205) * (t - 371))) ((94 - 205) * (94 - 371))).bind fun a =>
    (qdivChecked (902 * ((t - 94) * (t - 371))) ((205 - 94) * (205 - 371))).bind fun b =>
      (qdivChecked (860 * ((t - 94) * (t - 205))) ((371 - 94) * (371 - 205))).map fun c =>
        a + b + c

/-- One printed line of the script: either a single float or the pair returned
by the quadrature call. -/
inductive PrintLine
  | num : ℚ → PrintLine
  | pair : ℚ × ℚ → PrintLine
deriving DecidableEq

/-- The module body's writes to standard output, in source order:
`print(f_interp(251.0))`, then `print(quad(f_interp, 94.0, 251.0))`, then
`print(f(251.0))`. -/
def programOutput : List PrintLine :=
  [PrintLine.num (f_interp 251), PrintLine.pair (quad 94 251), PrintLine.num (f 251)]

/-- C5: for every query point t below the minimum sample x-value the linear
interpolant returns exactly 929, and for every t above the maximum it returns
exactly 860: it clamps to the nearest endpoint's y-value. -/
theorem interp_clamps (t : ℚ) :
    (t < 94 → f_interp t = 929) ∧ (371 < t → f_interp t = 860) := by
  constructor
  · intro h
    unfold f_interp
    rw [if_pos (le_of_lt h)]
  · intro h
    unfold f_interp
    rw [if_neg (by linarith), if_neg (by linarith), if_neg (by linarith)]

/-- Witness for C5: the clamping theorem applied at the concrete query points
0 and 400. -/
theorem interp_clamps_witness :
    f_interp 0 = 929 ∧ f_interp 400 = 860 :=
  ⟨(interp_clamps 0).1 (by norm_num), (interp_clamps 400).2 (by norm_num)⟩

/-- C6: both interpolants, evaluated exactly at the sample x-values 94, 205
and 371, return 929, 902 and 860 respectively (exactly, hence within any
floating-point tolerance). -/
theorem interp_pass_through :
    f_interp 94 = 929 ∧ f_interp 205 = 902 ∧ f_interp 371 = 860
      ∧ f 94 = 929 ∧ f 205 = 902 ∧ f 371 = 860 := by
  refine ⟨?_, ?_, ?_, ?_, ?_, ?_⟩ <;> simp only [f_interp, f] <;> norm_num

/-- C4: for every query point t, the hand-expanded function `f` with its
hardcoded constants equals the closed-form Lagrange interpolant
y0 * L0(t) + y1 * L1(t) + y2 * L2(t) for the sample set
[(94, 929), (205, 902), (371, 860)]. -/
theorem quadratic_eq_lagrange (t : ℚ) : f t = lagrangeInterp t := by
  simp only [f, lagrangeInterp, lagrangeL0, lagrangeL1, lagrangeL2]
  ring

/-- C7: evaluating the quadratic interpolant never divides by zero: with every
division guarded, the error branch (`none`) is unreachable, and the guarded
evaluation always returns `some (f t)`. -/
theorem quadratic_no_div_zero (t : ℚ) : fChecked t = some (f t) := by
  simp only [fChecked, qdivChecked, f]
  norm_num [Option.bind]

/-- C8: the program writes exactly three results to standard output, in a
fixed sequential order: the linear-interpolant value at 251, then the pair
returned by the quadrature over [94, 251], then the quadratic-interpolant
value at 251. -/
theorem program_output_order :
    programOutput
        = [PrintLine.num (f_interp 251), PrintLine.pair (quad 94 251), PrintLine.num (f 251)]
      ∧ programOutput.length = 3 :=
  ⟨rfl, rfl⟩

/-- C9: the three sample points are not collinear: the t^2 coefficient of `f`
(characterised by its constant second difference, f(t+2) - 2 f(t+1) + f(t)
= 2 * leadingCoeff for all t) equals -180/5104002 ≠ 0, and the two segment
slopes of the piecewise-linear interpolant differ. -/
theorem samples_not_collinear :
    (∀ t : ℚ, f (t + 2) - 2 * f (t + 1) + f t = 2 * leadingCoeff)
      ∧ leadingCoeff = -180 / 5104002
      ∧ leadingCoeff ≠ 0
      ∧ ((902 - 929) / (205 - 94) : ℚ) ≠ (860 - 902) / (371 - 205) := by
  refine ⟨fun t => ?_, ?_, ?_, ?_⟩
  · simp only [f, leadingCoeff]; ring
  · simp only [leadingCoeff]; norm_num
  · simp only [leadingCoeff]; norm_num
  · norm_num

/-- Counterexample to C1 as stated: the quadrature estimate over [94, 251] is
the definite integral of the interpolant, about 142845, and does not lie in
the range [860, 929] of sample y-values. -/
theorem quad_estimate_not_in_sample_range :
    ¬(860 ≤ (quad 94 251).1 ∧ (quad 94 251).1 ≤ 929) := by
  intro h
  have hval : (quad 94 251).1 = 23712239 / 166 := by
    simp only [quad, interpAntideriv]
    norm_num
  rw [hval] at h
  exact absurd h.2 (by norm_num)

/-- C1 amended: the quadrature estimate over [94, 251] equals the exact
integral 23712239/166 of the piecewise-linear interpolant; it lies between
157 * 860 and 157 * 929 (equivalently, its mean value over the length-157
interval lies between the minimum and maximum sample y-values), and the
reported error estimate is non-negative and less than 1e-6. -/
theorem quad_estimate_mean_value_bounds :
    (quad 94 251).1 = 23712239 / 166
      ∧ 157 * 860 ≤ (quad 94 251).1 ∧ (quad 94 251).1 ≤ 157 * 929
      ∧ 0 ≤ (quad 94 251).2 ∧ (quad 94 251).2 < 1 / 1000000 := by
  have hval : (quad 94 251).1 = 23712239 / 166 := by
    simp only [quad, interpAntideriv]
    norm_num
  have herr : (quad 94 251).2 = 0 := rfl
  rw [hval, herr]
  norm_num

/-- Counterexample to C3 as stated: the value 902 + 46 * (-42) / 166 that the
interpolant takes at 251 is 890.361..., not approximately 889.361 — it misses
that figure by more than 1/2. -/
theorem linear_at_251_not_889 :
    ¬ |f_interp 251 - 889361 / 1000| < 1 / 2 := by
  have h : f_interp 251 = 73900 / 83 := by
    simp only [f_interp]
    norm_num
  rw [h, abs_of_nonneg (by norm_num)]
  norm_num

/-- C3 amended: on each bracketing interval of consecutive sample x-values the
interpolant equals y_i + (t - x_i) * (y_{i+1} - y_i) / (x_{i+1} - x_i); in
particular f_interp(251) = 902 + 46 * (-42) / 166 = 73900/83 ≈ 890.361 (not
889.361 as the claim's numeric gloss had it). -/
theorem interp_bracket_formula (t : ℚ) :
    (94 ≤ t → t ≤ 205 → f_interp t = 929 + (t - 94) * (902 - 929) / (205 - 94))
      ∧ (205 ≤ t → t ≤ 371 → f_interp t = 902 + (t - 205) * (860 - 902) / (371 - 205))
      ∧ f_interp 251 = 902 + 46 * (-42) / 166
      ∧ |f_interp 251 - 890361 / 1000| < 1 / 1000 := by
  have h251 : f_interp 251 = 73900 / 83 := by
    simp only [f_interp]
    norm_num
  refine ⟨?_, ?_, ?_, ?_⟩
  · intro h1 h2
    simp only [f_interp]
    rcases eq_or_lt_of_le h1 with h94 | h94
    · rw [if_pos (le_of_eq h94.symm)]
      rw [← h94]
      norm_num
    · rw [if_neg (by linarith), if_pos h2]
  · intro h1 h2
    simp only [f_interp]
    rcases eq_or_lt_of_le h1 with h205 | h205
    · rw [if_neg (by linarith), if_pos (le_of_eq h205.symm)]
      rw [← h205]
      norm_num
    · rw [if_neg (by linarith), if_neg (by linarith), if_pos h2]
  · rw [h251]; norm_num
  · rw [h251, abs_of_nonneg (by norm_num)]
    norm_num

/-- Witness for C3 amended: the bracket formula evaluated at the concrete
query points 100 (first interval) and 251 (second interval). -/
theorem interp_bracket_formula_witness :
    f_interp 100 = 929 + (100 - 94) * (902 - 929) / (205 - 94)
      ∧ f_interp 251 = 902 + (251 - 205) * (860 - 902) / (371 - 205) :=
  ⟨(interp_bracket_formula 100).1 (by norm_num) (by norm_num),
    (interp_bracket_formula 251).2.1 (by norm_num) (by norm_num)⟩

/-- Counterexample to C2 as stated: at the query point t = -2476151/370
(≈ -6692.3), which is none of the sample x-values, the clamped linear
interpolant and the quadratic both return exactly 929, so the two interpolants
do not differ at every non-sample point. -/
theorem interp_eq_quadratic_outside_samples :
    (-2476151 / 370 : ℚ) ≠ 94 ∧ (-2476151 / 370 : ℚ) ≠ 205
      ∧ (-2476151 / 370 : ℚ) ≠ 371
      ∧ f_interp (-2476151 / 370) = f (-2476151 / 370) := by
  refine ⟨by norm_num, by norm_num, by norm_num, ?_⟩
  have h1 : f_interp (-2476151 / 370) = 929 := by
    simp only [f_interp]
    norm_num
  have h2 : f (-2476151 / 370) = 929 := by
    simp only [f]
    norm_num
  rw [h1, h2]

/-- C2 amended: for every query point t inside the sample range [94, 371] that
is not one of the sample x-values, the piecewise-linear interpolant and the
quadratic Lagrange interpolant return different values (outside the sample
range the clamped interpolant can meet the quadratic again); the two agree
exactly at the three sample points. -/
theorem interp_ne_quadratic_within_range :
    (∀ t : ℚ, 94 ≤ t → t ≤ 371 → t ≠ 94 → t ≠ 205 → t ≠ 371 → f_interp t ≠ f t)
      ∧ f_interp 94 = f 94 ∧ f_interp 205 = f 205 ∧ f_interp 371 = f 371 := by
  constructor
  · intro t hlo hhi hn94 hn205 hn371 heq
    have h94 : 94 < t := lt_of_le_of_ne hlo (Ne.symm hn94)
    have h371 : t < 371 := lt_of_le_of_ne hhi hn371
    rcases lt_or_gt_of_ne hn205 with h205 | h205
    · have hfi : f_interp t = 929 + (t - 94) * (902 - 929) / (205 - 94) := by
        simp only [f_interp]
        rw [if_neg (by linarith), if_pos (by linarith)]
      have hdiff : f t - (929 + (t - 94) * (902 - 929) / (205 - 94))
          = (-30 / 850667) * ((t - 94) * (t - 205)) := by
        simp only [f]
        ring
      rw [hfi] at heq
      rw [← heq, sub_self] at hdiff
      have hne : (-30 / 850667 : ℚ) * ((t - 94) * (t - 205)) ≠ 0 :=
        mul_ne_zero (by norm_num)
          (mul_ne_zero (by intro h0; exact hn94 (by linarith [sub_eq_zero.mp h0]))
            (by intro h0; exact hn205 (by linarith [sub_eq_zero.mp h0])))
      exact hne hdiff.symm
    · have hfi : f_interp t = 902 + (t - 205) * (860 - 902) / (371 - 205) := by
        simp only [f_interp]
        rw [if_neg (by linarith), if_neg (by linarith), if_pos (by linarith)]
      have hdiff : f t - (902 + (t - 205) * (860 - 902) / (371 - 205))
          = (-30 / 850667) * ((t - 205) * (t - 371)) := by
        simp only [f]
        ring
      rw [hfi] at heq
      rw [← heq, sub_self] at hdiff
      have hne : (-30 / 850667 : ℚ) * ((t - 205) * (t - 371)) ≠ 0 :=
        mul_ne_zero (by norm_num)
          (mul_ne_zero (by intro h0; exact hn205 (by linarith [sub_eq_zero.mp h0]))
            (by intro h0; exact hn371 (by linarith [sub_eq_zero.mp h0])))
      exact hne hdiff.symm
  · refine ⟨?_, ?_, ?_⟩ <;> simp only [f_interp, f] <;> norm_num

/-- Witness for C2 amended: at the interior non-sample query point 150 the two
interpolants disagree. -/
theorem interp_ne_quadratic_witness :
    (94 : ℚ) ≤ 150 ∧ f_interp 150 ≠ f 150 :=
  ⟨by norm_num,
    interp_ne_quadratic_within_range.1 150 (by norm_num) (by norm_num)
      (by norm_num) (by norm_num) (by norm_num)⟩

/-- C10: the piecewise-linear interpolant is monotonically non-increasing on
the whole line: whenever s ≤ t, f_interp s ≥ f_interp t, since the sample
y-values decrease in x and the interpolant is clamped outside [94, 371]. -/
theorem interp_monotone (s t : ℚ) (h : s ≤ t) : f_interp t ≤ f_interp s := by
  simp only [f_interp]
  split_ifs <;> linarith

/-- Witness for C10: monotonicity at the concrete pair (100, 300). -/
theorem interp_monotone_witness :
    (100 : ℚ) ≤ 300 ∧ f_interp 300 ≤ f_interp 100 :=
  ⟨by norm_num, interp_monotone 100 300 (by norm_num)⟩

end Interp
